import Mathlib

/-!
Verification of the DevstoreSDK natural-language specification against a
shallow embedding of `src/lib.rs`.

Modelling conventions used throughout this development:

* Rust `String`/`&str` values are Lean `String`s; raw C strings crossing the
  FFI boundary are `Option (List Nat)` (a null pointer, or the byte sequence
  up to the NUL terminator).  UTF-8 validation (`CStr::to_str`) is embedded
  as an executable decoder `utf8_decode` following RFC 3629 exactly as the
  Rust standard library validates it.
* Filesystem paths are lists of components (`List String`); `Path::join` of a
  relative name is list append, and `str_components` splits a path string on
  `/`.  The filesystem is an explicit state (`FsState`) holding the files
  (path to contents association list, one entry per path) and the created
  directories.  Fallible filesystem primitives whose outcome a claim depends
  on are driven by explicit oracles (`EntryFsOps`); where no claim depends on
  a failure the primitive is modelled on its success path.
* The HTTP transport, the zip container codec and serde JSON
  (de)serialization are external collaborators per the specification; their
  outcomes enter the models as explicit `Except`/function parameters.  The
  zip archive itself is modelled by the specification's own data model for
  archives: a sequence of (relative path, bytes) entries with directory
  entries marked by a trailing `/` (field `isDir`).
* Machine integers are `Nat` (with an explicit `% 2 ^ 32` where the source
  performs an `as u32` truncating cast).
-/

set_option maxRecDepth 10000

namespace DevstoreSDK

/-- `DevstoreMessageStatus` from `lib.rs` lines 19-26. -/
inductive DevstoreMessageStatus where
  | Info
  | Success
  | Warning
  | Error
deriving DecidableEq, Repr

/-- `DevstoreFfiMessage` from `lib.rs` lines 28-33.  The `message` field holds
the text of the NUL-terminated C string owned by the envelope (the terminator
itself is implicit; validity of the termination is the absence of an interior
NUL character). -/
structure DevstoreFfiMessage where
  status : DevstoreMessageStatus
  code : Nat
  message : String
deriving DecidableEq, Repr

/-- `cleaned.replace(NUL, " ")` from `sanitize_message` (line 37): every NUL
character of the text is replaced by a space.  (Replacing a one-character
pattern by a one-character string is exactly a character-wise map.) -/
def replace_nul (s : String) : String :=
  String.mk (s.data.map fun c => if c = Char.ofNat 0 then ' ' else c)

/-- `CString::new` (collaborator): fails exactly when the text contains an
interior NUL byte, otherwise returns the NUL-terminated copy. -/
def cstring_new (s : String) : Option String :=
  if Char.ofNat 0 ∈ s.data then none else some s

/-- `sanitize_message` from `lib.rs` lines 35-40. -/
def sanitize_message (text : String) : String :=
  (cstring_new (replace_nul text)).getD "Message contained invalid bytes"

/-- `build_message` from `lib.rs` lines 42-55.  The Rust function heap
allocates and never returns null; the model is the (total) returned value. -/
def build_message (status : DevstoreMessageStatus) (code : Nat) (text : String) :
    DevstoreFfiMessage :=
  { status := status, code := code, message := sanitize_message text }

/-- `message_success` (lines 57-59). -/
def message_success (text : String) : DevstoreFfiMessage :=
  build_message .Success 0 text

/-- `message_info` (lines 61-63). -/
def message_info (text : String) : DevstoreFfiMessage :=
  build_message .Info 0 text

/-- `message_warning` (lines 65-67). -/
def message_warning (text : String) : DevstoreFfiMessage :=
  build_message .Warning 0 text

/-- `message_error` (lines 69-71). -/
def message_error (text : String) : DevstoreFfiMessage :=
  build_message .Error 0 text

/-- `message_with_code` (lines 73-79). -/
def message_with_code (status : DevstoreMessageStatus) (code : Nat) (text : String) :
    DevstoreFfiMessage :=
  build_message status code text

/-- `missing_param` (lines 81-83). -/
def missing_param (name : String) : DevstoreFfiMessage :=
  message_error ("Missing " ++ name ++ " parameter")

/-- `invalid_param` (lines 85-87). -/
def invalid_param (name : String) : DevstoreFfiMessage :=
  message_error ("Invalid " ++ name ++ " parameter")

/-- Whether a byte is a UTF-8 continuation byte (`0x80-0xBF`). -/
def utf8_cont (b : Nat) : Bool :=
  0x80 ≤ b && b ≤ 0xBF

/-- UTF-8 validation/decoding exactly as the Rust standard library performs it
for `str::from_utf8` (RFC 3629: rejects overlong forms, surrogates and code
points above `0x10FFFF`).  `none` models a `Utf8Error`. -/
def utf8_decode : List Nat → Option (List Char)
  | [] => some []
  | b :: rest =>
    if b ≤ 0x7F then
      (utf8_decode rest).map fun cs => Char.ofNat b :: cs
    else if 0xC2 ≤ b && b ≤ 0xDF then
      match rest with
      | b1 :: rest1 =>
        if utf8_cont b1 then
          (utf8_decode rest1).map fun cs =>
            Char.ofNat ((b - 0xC0) * 64 + (b1 - 0x80)) :: cs
        else none
      | [] => none
    else if 0xE0 ≤ b && b ≤ 0xEF then
      match rest with
      | b1 :: b2 :: rest2 =>
        let lo := if b = 0xE0 then 0xA0 else 0x80
        let hi := if b = 0xED then 0x9F else 0xBF
        if (lo ≤ b1 && b1 ≤ hi) && utf8_cont b2 then
          (utf8_decode rest2).map fun cs =>
            Char.ofNat ((b - 0xE0) * 4096 + (b1 - 0x80) * 64 + (b2 - 0x80)) :: cs
        else none
      | _ => none
    else if 0xF0 ≤ b && b ≤ 0xF4 then
      match rest with
      | b1 :: b2 :: b3 :: rest3 =>
        let lo := if b = 0xF0 then 0x90 else 0x80
        let hi := if b = 0xF4 then 0x8F else 0xBF
        if (lo ≤ b1 && b1 ≤ hi) && utf8_cont b2 && utf8_cont b3 then
          (utf8_decode rest3).map fun cs =>
            Char.ofNat ((b - 0xF0) * 262144 + (b1 - 0x80) * 4096 + (b2 - 0x80) * 64
              + (b3 - 0x80)) :: cs
        else none
      | _ => none
    else none

/-- The bytes of an ASCII string, used to build concrete foreign-string
arguments in scenarios. -/
def ascii_bytes (s : String) : List Nat :=
  s.data.map Char.toNat

/-- `parse_c_string` from `lib.rs` lines 89-101: the single shared validation
routine for every foreign string argument.  A null pointer is
`Err(missing_param)`, bytes that fail UTF-8 decoding or decode to the empty
string are `Err(invalid_param)`, otherwise the borrowed string is returned. -/
def parse_c_string (value : Option (List Nat)) (name : String) :
    Except DevstoreFfiMessage String :=
  match value with
  | none => .error (missing_param name)
  | some bytes =>
    match utf8_decode bytes with
    | some cs => if cs = [] then .error (invalid_param name) else .ok (String.mk cs)
    | none => .error (invalid_param name)

/-- `normalize_url` from `lib.rs` lines 123-129; `url.ends_with('/')` tests
whether the final character is `/`. -/
def normalize_url (url : String) : String :=
  if url.data.getLast? = some '/' then url else url ++ "/"

/-- `set_custom_url` from `lib.rs` lines 236-246, with the `API_URL` global
made an explicit state argument: returns the new stored URL and the envelope. -/
def set_custom_url (custom_url : Option (List Nat)) (api_url : String) :
    String × DevstoreFfiMessage :=
  match parse_c_string custom_url "custom_url" with
  | .error err => (api_url, err)
  | .ok parsed =>
    let normalized := normalize_url parsed
    (normalized, message_success ("Custom URL set to " ++ normalized))

/-- Request target of `upload_save_to_server`/`download_save_from_server`
(lines 358, 405): the stored base URL immediately followed by the endpoint. -/
def cloud_saves_url (base : String) : String :=
  base ++ "cloud-saves/"

/-- Request target of `get_version_from_id` (line 496). -/
def version_hex_url (base : String) : String :=
  base ++ "version-hex/"

/-- Request target of `check_and_show_notification` (lines 572-576). -/
def latest_notification_url (base : String) (product_id : String) : String :=
  base ++ "get-latest-notification-for-app/?product_id=" ++ product_id

/-- Request target of `is_devstore_online` (line 660). -/
def status_check_url (base : String) : String :=
  base ++ "status-check"

/-- Request target of `get_current_username` (line 694). -/
def username_by_secret_url (base : String) : String :=
  base ++ "get-username-by-secret/"

/-- Request target of `download_update_for_product` (line 753). -/
def latest_patch_url (base : String) : String :=
  base ++ "get_latest_patch/"

/-- Request target of `verify_download_v2` (line 849). -/
def verify_download_url (base : String) : String :=
  base ++ "verify-download/"

/-! ### HTTP transport collaborator -/

deriving instance DecidableEq for Except

/-- A transport response, as the blocking HTTP collaborator delivers it:
`isSuccess` is `status().is_success()`, `statusCode` the raw status,
`textResult` the outcome of `.text()` and `bytesResult` the outcome of
`.bytes()`. -/
structure HttpResponse where
  isSuccess : Bool
  statusCode : Nat
  textResult : Except String String
  bytesResult : Except String (List Nat)
deriving DecidableEq, Repr

/-- `response.text().unwrap_or_else(|_| "No response message")`, the idiom
used throughout `lib.rs`. -/
def response_text (r : HttpResponse) : String :=
  match r.textResult with
  | .ok t => t
  | .error _ => "No response message"

/-! ### JSON values (serde collaborator) -/

/-- The shape of `serde_json::Value`. -/
inductive Json where
  | null
  | bool (b : Bool)
  | num (n : Int)
  | str (s : String)
  | arr (elems : List Json)
  | obj (fields : List (String × Json))

/-- `Value::get(key)` on an object: the value of the first field named `key`. -/
def Json.get (j : Json) (key : String) : Option Json :=
  match j with
  | .obj fields => (fields.find? fun f => f.1 = key).map Prod.snd
  | _ => none

/-- `Value::as_str`. -/
def Json.as_str (j : Json) : Option String :=
  match j with
  | .str s => some s
  | _ => none

/-- `Value::as_u64`. -/
def Json.as_u64 (j : Json) : Option Nat :=
  match j with
  | .num n => if 0 ≤ n ∧ n < 2 ^ 64 then some n.toNat else none
  | _ => none

/-! ### Paths and the filesystem model -/

/-- Split a character sequence on `/` (the accumulator holds the current
component, reversed). -/
def components_aux : List Char → List Char → List String
  | [], acc => [String.mk acc.reverse]
  | c :: rest, acc =>
    if c = '/' then String.mk acc.reverse :: components_aux rest []
    else components_aux rest (c :: acc)

/-- The component list of a path string (separator `/`; empty components do
not contribute). -/
def str_components (s : String) : List String :=
  (components_aux s.data []).filter fun c => c ≠ ""

/-- Lexical resolution of `.` and `..` components, as the operating system
resolves a (symlink-free) path when a file is created at it. -/
def resolve_path (comps : List String) : List String :=
  comps.foldl
    (fun acc c => if c = ".." then acc.dropLast else if c = "." then acc else acc ++ [c]) []

/-- The filesystem state: files as an association list (one entry per path,
newest first) and the set of directories created so far. -/
structure FsState where
  files : List (List String × List Nat)
  dirs : List (List String)
deriving DecidableEq, Repr

/-- The empty destination filesystem. -/
def emptyFs : FsState := { files := [], dirs := [] }

/-- Contents of the file stored at a path, if any. -/
def findVal (p : List String) : List (List String × List Nat) → Option (List Nat)
  | [] => none
  | q :: rest => if q.1 = p then some q.2 else findVal p rest

/-- Drop the file stored at a path (there is at most one). -/
def removeFile : List (List String × List Nat) → List String → List (List String × List Nat)
  | [], _ => []
  | q :: rest, p => if q.1 = p then removeFile rest p else q :: removeFile rest p

/-- `fs::File::create` followed by writing `c`: replaces whatever file was
stored at `p`. -/
def writeFile (fs : FsState) (p : List String) (c : List Nat) : FsState :=
  { fs with files := (p, c) :: removeFile fs.files p }

/-- `Path::exists` on a directory path, against the model state. -/
def dirExists (fs : FsState) (p : List String) : Bool :=
  fs.dirs.contains p

/-- `fs::create_dir_all` on its success path (ancestor bookkeeping elided:
claims only consult the exact paths the code tests). -/
def addDir (fs : FsState) (p : List String) : FsState :=
  { fs with dirs := p :: fs.dirs }

/-! ### Archive model -/

/-- One archive entry, per the specification's archive data model: the entry
name as path components, whether the name ends in `/` (a directory entry),
and the entry's decompressed bytes. -/
structure ZipEntry where
  name : List String
  isDir : Bool
  contents : List Nat
deriving DecidableEq, Repr

/-- Per-entry outcomes of the fallible filesystem primitives used by the
extraction loops: `create_dir_all`, `File::create` and `io::copy`. -/
structure EntryFsOps where
  mkdirOk : Bool
  createOk : Bool
  copyOk : Bool
deriving DecidableEq, Repr

/-- The oracle for a filesystem in which every primitive succeeds. -/
def allOk : Nat → EntryFsOps := fun _ => ⟨true, true, true⟩

/-- The extraction loop of `download_save_from_server`, `lib.rs` lines
429-474.  Entry `i` of the archive arrives as `zip_archive.by_index(i)`
(possibly an error); `outpath = Path::new(extract_path).join(file.name())` is
list append; a failure aborts the loop, leaving the destination as written so
far.  (The OS error text interpolated into the messages is elided.) -/
def download_extract (dest : List String) (ops : Nat → EntryFsOps) :
    List (Except String ZipEntry) → Nat → FsState → Option DevstoreFfiMessage × FsState
  | [], _, fs => (none, fs)
  | .error e :: _, _, fs =>
    (some (message_error ("Error: Failed to access file in zip: " ++ e)), fs)
  | .ok entry :: rest, i, fs =>
    let outpath := dest ++ entry.name
    if entry.isDir then
      if (ops i).mkdirOk then
        download_extract dest ops rest (i + 1) (addDir fs outpath)
      else (some (message_error "Error: Failed to create directory: "), fs)
    else
      if !(dirExists fs outpath.dropLast) && !(ops i).mkdirOk then
        (some (message_error "Error: Failed to create parent directory: "), fs)
      else
        let fs1 := if dirExists fs outpath.dropLast then fs else addDir fs outpath.dropLast
        if !(ops i).createOk then
          (some (message_error "Error: Failed to create output file: "), fs1)
        else
          let fs2 := writeFile fs1 outpath []
          if !(ops i).copyOk then
            (some (message_error "Error: Failed to copy file contents: "), fs2)
          else
            download_extract dest ops rest (i + 1) (writeFile fs2 outpath entry.contents)

/-- The extraction loop of `download_update_for_product`, `lib.rs` lines
802-828: identical path handling, slightly different error texts. -/
def update_extract (dest : List String) (ops : Nat → EntryFsOps) :
    List (Except String ZipEntry) → Nat → FsState → Option DevstoreFfiMessage × FsState
  | [], _, fs => (none, fs)
  | .error e :: _, _, fs =>
    (some (message_error ("Error: Failed to access file in zip: " ++ e)), fs)
  | .ok entry :: rest, i, fs =>
    let outpath := dest ++ entry.name
    if entry.isDir then
      if (ops i).mkdirOk then
        update_extract dest ops rest (i + 1) (addDir fs outpath)
      else (some (message_error "Error: Failed to create directory: "), fs)
    else
      if !(dirExists fs outpath.dropLast) && !(ops i).mkdirOk then
        (some (message_error "Error: Failed to create parent directory"), fs)
      else
        let fs1 := if dirExists fs outpath.dropLast then fs else addDir fs outpath.dropLast
        if !(ops i).createOk then
          (some (message_error "Error: Failed to create file: "), fs1)
        else
          let fs2 := writeFile fs1 outpath []
          if !(ops i).copyOk then
            (some (message_error "Error: Failed to write file contents"), fs2)
          else
            update_extract dest ops rest (i + 1) (writeFile fs2 outpath entry.contents)

/-- One item produced by the recursive directory walk of
`upload_save_to_server` (lines 295-333): a walk error, a regular file (with
its path relative to the walk root and the outcome of reading it), or a
non-file entry, which the loop skips. -/
inductive WalkItem where
  | err (e : String)
  | file (rel : List String) (read : Except String (List Nat))
  | dir (rel : List String)

/-- The archive-building loop for the directory branch of
`upload_save_to_server` (lines 295-333): walk items in traversal order become
archive entries named by their relative path; a walk error or a read failure
aborts the packing with the corresponding `Error` envelope.  (The zip
writer's `start_file`/`write_all` on the in-memory buffer are the archive
collaborator's success path.) -/
def pack_dir : List WalkItem → Except DevstoreFfiMessage (List ZipEntry)
  | [] => .ok []
  | .err e :: _ => .error (message_error ("Error: traversing directory: " ++ e))
  | .dir _ :: rest => pack_dir rest
  | .file rel read :: rest =>
    match read with
    | .error e => .error (message_error ("Error: Failed to read file in folder: " ++ e))
    | .ok bytes => (pack_dir rest).map fun entries => ⟨rel, false, bytes⟩ :: entries

/-- The archive produced by packing a directory tree of regular files whose
walk succeeds: one non-directory entry per file, named by its relative path,
in traversal order. -/
def packed_entries (files : List (List String × List Nat)) : List ZipEntry :=
  files.map fun pc => { name := pc.1, isDir := false, contents := pc.2 }

/-! ### Notification dedup cache -/

/-- `NotificationCache` from `lib.rs` lines 135-138. -/
structure NotificationCache where
  shown_ids : List Nat
deriving DecidableEq, Repr

/-- `load_notification_cache` from `lib.rs` lines 200-208, with the cache
file's content (`fs::read_to_string`, `none` on a missing or unreadable file)
and the serde parse of the `shown_ids` document as explicit inputs.  The
returned list is the membership set of previously shown identifiers. -/
def load_notification_cache (parseCache : String → Option NotificationCache)
    (content : Option String) : List Nat :=
  match content with
  | some c =>
    match parseCache c with
    | some cache => cache.shown_ids
    | none => []
  | none => []

/-- `save_notification_cache` from `lib.rs` lines 210-218: serialize the full
set and overwrite the cache file; a serialization failure leaves the file
unchanged (the write itself is best-effort). -/
def save_notification_cache (cacheToJson : NotificationCache → Option String)
    (current : Option String) (cache : List Nat) : Option String :=
  match cacheToJson { shown_ids := cache } with
  | some data => some data
  | none => current

/-! ### check_and_show_notification -/

/-- `check_and_show_notification` from `lib.rs` lines 562-632.  Explicit
collaborators: `jsonParse` (serde on the response body), `parseCache` and
`cacheToJson` (serde on the cache document).  Explicit effects: the transport
outcome `resp`, the cache file content before the call, and — in the result —
the envelope, the cache file content after the call, and the list of
`(title, body)` notifications displayed via `send_notification` (whose own
envelope the code drops). -/
def check_and_show_notification (jsonParse : String → Option Json)
    (parseCache : String → Option NotificationCache)
    (cacheToJson : NotificationCache → Option String)
    (product_id : Option (List Nat)) (resp : Except String HttpResponse)
    (cacheContent : Option String) :
    DevstoreFfiMessage × Option String × List (String × String) :=
  match parse_c_string product_id "product_id" with
  | .error err => (err, cacheContent, [])
  | .ok _ =>
    match resp with
    | .error e => (message_error ("HTTP request failed: " ++ e), cacheContent, [])
    | .ok r =>
      if r.isSuccess then
        match r.textResult with
        | .error e =>
          (message_error ("Error: Failed to read response text, " ++ e), cacheContent, [])
        | .ok text =>
          match jsonParse text with
          | none => (message_error "Error: Failed to parse JSON, ", cacheContent, [])
          | some json =>
            let notif_id := ((json.get "notification_id").bind Json.as_u64).getD 0 % 2 ^ 32
            let title := ((json.get "title").bind Json.as_str).getD "Notification"
            let msg := ((json.get "message").bind Json.as_str).getD ""
            if msg = "" || notif_id = 0 then
              (message_info "No notification to show.", cacheContent, [])
            else
              let cache := load_notification_cache parseCache cacheContent
              if cache.contains notif_id then
                (message_info "Notification already shown.", cacheContent, [])
              else
                (message_success "Notification shown.",
                 save_notification_cache cacheToJson cacheContent (cache ++ [notif_id]),
                 [(title, msg)])
      else
        (message_info "No notification returned from server.", cacheContent, [])

/-! ### upload_save_to_server -/

/-- What `fs::metadata` reports for the argument path. -/
inductive PathKind where
  | file
  | dir
  | other
deriving DecidableEq, Repr

/-- The effect inputs of one `upload_save_to_server` call. -/
structure UploadEnv where
  package_id : Option (List Nat)
  user_secret : Option (List Nat)
  file_or_folder_path : Option (List Nat)
  metadata : Option PathKind
  fileRead : Except String (List Nat)
  walkItems : List WalkItem

/-- The result of one `upload_save_to_server` call: the envelope and the
requests actually sent (their target URLs, in order). -/
structure UploadResult where
  envelope : DevstoreFfiMessage
  requests : List String
deriving DecidableEq, Repr

/-- `upload_save_to_server` from `lib.rs` lines 249-382.  `jsonDisplay`
models serde's `Display` rendering of the `message` field of a JSON success
body.  The single network request (line 357-360) is recorded in `requests`
when — and only when — the code reaches `send()`. -/
def upload_save_to_server (env : UploadEnv) (api_url : String)
    (sendResult : Except String HttpResponse) (jsonParse : String → Option Json)
    (jsonDisplay : Json → String) : UploadResult :=
  match parse_c_string env.package_id "package_id" with
  | .error err => ⟨err, []⟩
  | .ok _ =>
  match parse_c_string env.user_secret "user_secret" with
  | .error err => ⟨err, []⟩
  | .ok _ =>
  match parse_c_string env.file_or_folder_path "file_or_folder_path" with
  | .error err => ⟨err, []⟩
  | .ok path =>
  match env.metadata with
  | none => ⟨message_error "Error: File or folder does not exist", []⟩
  | some kind =>
  let packResult : Except DevstoreFfiMessage (List ZipEntry) :=
    match kind with
    | .file =>
      match env.fileRead with
      | .error _ => .error (message_error "Error: Failed to read file")
      | .ok bytes =>
        let filename := ((str_components path).getLast?).getD "file"
        .ok [⟨[filename], false, bytes⟩]
    | .dir => pack_dir env.walkItems
    | .other => .error (message_error "Error: Path is neither a file nor a directory")
  match packResult with
  | .error err => ⟨err, []⟩
  | .ok _ =>
  let url := cloud_saves_url api_url
  match sendResult with
  | .error e => ⟨message_error ("Error: " ++ e), [url]⟩
  | .ok r =>
    let text := response_text r
    if r.isSuccess then
      match jsonParse text with
      | some json =>
        match json.get "message" with
        | some msg => ⟨message_success ("Upload successful: " ++ jsonDisplay msg), [url]⟩
        | none => ⟨message_success ("Upload successful: " ++ text), [url]⟩
      | none => ⟨message_success ("Upload successful: " ++ text), [url]⟩
    else
      ⟨message_error ("Upload failed: " ++ text), [url]⟩

/-! ### download_save_from_server -/

/-- `download_save_from_server` from `lib.rs` lines 385-485.  `zipOpen`
models `zip::ZipArchive::new` on the response bytes, delivering the
`by_index` outcome for each entry; `ops` drives the fallible filesystem
primitives of the extraction loop; `fs0` is the destination filesystem before
the call.  Result: the envelope, the destination filesystem after the call,
and the requests sent. -/
def download_save_from_server (package_id user_secret extract_path : Option (List Nat))
    (api_url : String) (sendResult : Except String HttpResponse)
    (zipOpen : List Nat → Except String (List (Except String ZipEntry)))
    (ops : Nat → EntryFsOps) (fs0 : FsState) :
    DevstoreFfiMessage × FsState × List String :=
  match parse_c_string package_id "package_id" with
  | .error err => (err, fs0, [])
  | .ok _ =>
  match parse_c_string user_secret "user_secret" with
  | .error err => (err, fs0, [])
  | .ok _ =>
  match parse_c_string extract_path "extract_path" with
  | .error err => (err, fs0, [])
  | .ok extract =>
  let url := cloud_saves_url api_url
  match sendResult with
  | .error e => (message_error ("Error: " ++ e), fs0, [url])
  | .ok r =>
    if r.isSuccess then
      match r.bytesResult with
      | .error e =>
        (message_error ("Error: Failed to read response bytes: " ++ e), fs0, [url])
      | .ok bytes =>
        match zipOpen bytes with
        | .error e =>
          (message_error ("Error: Failed to open zip archive: " ++ e), fs0, [url])
        | .ok items =>
          match download_extract (str_components extract) ops items 0 fs0 with
          | (some err, fs') => (err, fs', [url])
          | (none, fs') =>
            (message_success "Download and extraction successful.", fs', [url])
    else
      (message_error ("Download failed: " ++ response_text r), fs0, [url])

/-! ### download_update_for_product -/

/-- The effect inputs of one `download_update_for_product` call.
`baseUpdateExists` is whether `<prefs>/update` already exists;
`freshSuffix` is the three-letter suffix with which the random-candidate
loop (lines 779-788) terminates; `createDirOk` is the outcome of creating
the install directory; `manifestSerializeOk` and `manifestWriteOk` are the
outcomes of `serde_json::to_string_pretty` and `fs::write` for the update
manifest (lines 830-835). -/
structure UpdateEnv where
  package_id : Option (List Nat)
  sendResult : Except String HttpResponse
  baseUpdateExists : Bool
  freshSuffix : String
  createDirOk : Bool
  manifestSerializeOk : Bool
  manifestWriteOk : Bool

/-- The install directory resolved by lines 776-791: `<prefs>/update` when it
does not exist yet, otherwise the fresh `<prefs>/update_<suffix>`. -/
def update_install_path (pref_dir : List String) (baseExists : Bool) (suffix : String) :
    List String :=
  if baseExists then pref_dir ++ ["update_" ++ suffix] else pref_dir ++ ["update"]

/-- `download_update_for_product` from `lib.rs` lines 742-838.  Note lines
830-835: the manifest serialization and write results are discarded
(`if let Ok(data) = ... { let _ = fs::write(...); }`), so
`manifestSerializeOk` and `manifestWriteOk` do not influence the envelope. -/
def download_update_for_product (zipOpen : List Nat → Except String (List (Except String ZipEntry)))
    (env : UpdateEnv) (ops : Nat → EntryFsOps) (pref_dir : List String) (fs0 : FsState) :
    DevstoreFfiMessage × FsState :=
  match parse_c_string env.package_id "package_id" with
  | .error err => (err, fs0)
  | .ok _ =>
  match env.sendResult with
  | .error e => (message_error ("Error: Network error: " ++ e), fs0)
  | .ok r =>
    if !r.isSuccess then
      (message_error ("Error: Request failed: " ++ response_text r), fs0)
    else
      match r.bytesResult with
      | .error e => (message_error ("Error: Failed to read response bytes: " ++ e), fs0)
      | .ok bytes =>
        let update_path := update_install_path pref_dir env.baseUpdateExists env.freshSuffix
        if !env.createDirOk then
          (message_error "Error: Failed to create update dir: ", fs0)
        else
          let fs1 := addDir fs0 update_path
          match zipOpen bytes with
          | .error e => (message_error ("Error: Failed to open zip archive: " ++ e), fs1)
          | .ok items =>
            match update_extract update_path ops items 0 fs1 with
            | (some err, fs') => (err, fs')
            | (none, fs') =>
              (message_success "Update downloaded and extracted successfully.", fs')

/-! ### verify_download_v2 -/

/-- `verify_download_v2` from `lib.rs` lines 841-888.  The result carries the
envelope and the `(title, body)` notifications triggered (the code drops the
notification's own envelope).  Note the code never consults
`response.status()`: after a successful send only the body text is used. -/
def verify_download_v2 (jsonParse : String → Option Json)
    (package_id : Option (List Nat)) (resp : Except String HttpResponse) :
    DevstoreFfiMessage × List (String × String) :=
  match parse_c_string package_id "package_id" with
  | .error err => (err, [])
  | .ok _ =>
  match resp with
  | .error e => (message_error ("Error: Network error: " ++ e), [])
  | .ok r =>
    let txt := response_text r
    match jsonParse txt with
    | none => (message_error ("Error: Invalid server response: " ++ txt), [])
    | some json =>
      match (json.get "status").bind Json.as_str with
      | some "success" => (message_success "Download verified successfully.", [])
      | some "error" =>
        let msg := ((json.get "message").bind Json.as_str).getD "Unknown error"
        (message_error ("Error: " ++ msg), [("Download Verification Failed", msg)])
      | _ => (message_error ("Error: Unexpected response: " ++ txt), [])

/-! ### Concrete scenario data (claim C4) -/

/-- The server response body of the C4 scenario. -/
def scenario_body : String :=
  "\x7b\"notification_id\":5,\"title\":\"Hi\",\"message\":\"Hello\"\x7d"

/-- The JSON document the scenario body denotes. -/
def scenario_json : Json :=
  .obj [("notification_id", .num 5), ("title", .str "Hi"), ("message", .str "Hello")]

/-- Modelled collaborator: `serde_json::from_str` on the scenario's response
body (other inputs are irrelevant to the scenario and map to a parse error). -/
def scenario_json_parse : String → Option Json :=
  fun s => if s = scenario_body then some scenario_json else none

/-- Modelled collaborator: `serde_json::to_string_pretty` of the cache
document (whitespace of the pretty rendering elided). -/
def scenario_cache_to_json (c : NotificationCache) : Option String :=
  some ("\x7b\"shown_ids\":[" ++ String.intercalate "," (c.shown_ids.map toString) ++ "]\x7d")

/-- Modelled collaborator: serde parse of the persisted cache document
`\x7b"shown_ids":[5]\x7d`. -/
def scenario_cache_parse : String → Option NotificationCache :=
  fun s => if s = "\x7b\"shown_ids\":[5]\x7d" then some { shown_ids := [5] } else none

/-- The success condition the amended claim C3 speaks about: the patch fetch
(send, success status, readable bytes), the install-directory creation, the
archive open and the extraction of every entry all succeed. -/
def update_steps_ok (zipOpen : List Nat → Except String (List (Except String ZipEntry)))
    (env : UpdateEnv) (ops : Nat → EntryFsOps) (pref_dir : List String) (fs0 : FsState) :
    Prop :=
  ∃ r, env.sendResult = .ok r ∧ r.isSuccess = true ∧
    ∃ bytes, r.bytesResult = .ok bytes ∧ env.createDirOk = true ∧
      ∃ items, zipOpen bytes = .ok items ∧
        (update_extract (update_install_path pref_dir env.baseUpdateExists env.freshSuffix)
          ops items 0
          (addDir fs0 (update_install_path pref_dir env.baseUpdateExists env.freshSuffix))).1
          = none

/-! ## Helper lemmas -/

theorem status_message_error (t : String) : (message_error t).status = .Error := rfl

theorem status_message_success (t : String) : (message_success t).status = .Success := rfl

theorem nul_not_mem_map_replace (l : List Char) :
    Char.ofNat 0 ∉ l.map fun c => if c = Char.ofNat 0 then ' ' else c := by
  intro h
  rcases List.mem_map.mp h with ⟨c, _, hc⟩
  by_cases h0 : c = Char.ofNat 0
  · rw [if_pos h0] at hc
    exact absurd hc (by decide)
  · rw [if_neg h0] at hc
    exact h0 hc

theorem sanitize_message_eq_replace (text : String) :
    sanitize_message text = replace_nul text := by
  have h : Char.ofNat 0 ∉ (replace_nul text).data := nul_not_mem_map_replace text.data
  simp [sanitize_message, cstring_new, h]

theorem findVal_removeFile_self (p : List String) (l : List (List String × List Nat)) :
    findVal p (removeFile l p) = none := by
  induction l with
  | nil => rfl
  | cons q rest ih =>
    by_cases h : q.1 = p
    · simpa [removeFile, h] using ih
    · simpa [removeFile, h, findVal] using ih

theorem removeFile_of_findVal_none (p : List String) (l : List (List String × List Nat))
    (h : findVal p l = none) : removeFile l p = l := by
  induction l with
  | nil => rfl
  | cons q rest ih =>
    by_cases hq : q.1 = p
    · simp [findVal, hq] at h
    · simp only [findVal, if_neg hq] at h
      simp [removeFile, hq, ih h]

/-! ## Claim theorems -/

/-- C6: for every status, code and input text, `build_message` produces an
envelope (the build is a total operation: text sanitation cannot fail) whose
message equals the input with every embedded NUL replaced by a space, contains
no interior NUL (so the C string stays validly NUL-terminated), and whose
status and code are the requested ones. -/
theorem C6_build_message_sanitizes (status : DevstoreMessageStatus) (code : Nat)
    (text : String) :
    (build_message status code text).message.data
        = (text.data.map fun c => if c = Char.ofNat 0 then ' ' else c)
      ∧ Char.ofNat 0 ∉ (build_message status code text).message.data
      ∧ (build_message status code text).status = status
      ∧ (build_message status code text).code = code := by
  refine ⟨?_, ?_, rfl, rfl⟩
  · simp [build_message, sanitize_message_eq_replace, replace_nul]
  · simp only [build_message, sanitize_message_eq_replace, replace_nul]
    exact nul_not_mem_map_replace text.data

/-- C9: loading the notification dedup cache is a total operation that
returns the empty set when the cache file is missing or unreadable
(`content = none`) and when its content fails to parse as the shown-ids
document. -/
theorem C9_load_cache_empty_on_failure (parseCache : String → Option NotificationCache)
    (content : Option String) :
    (content = none → load_notification_cache parseCache content = [])
      ∧ ∀ s, content = some s → parseCache s = none →
          load_notification_cache parseCache content = [] := by
  constructor
  · rintro rfl
    rfl
  · rintro s rfl hp
    simp [load_notification_cache, hp]

theorem C9_load_cache_empty_on_failure_witness :
    load_notification_cache (fun _ => none) none = []
      ∧ load_notification_cache (fun _ => none) (some "not json") = [] :=
  ⟨(C9_load_cache_empty_on_failure (fun _ => none) none).1 rfl,
   (C9_load_cache_empty_on_failure (fun _ => none) (some "not json")).2 "not json" rfl rfl⟩

/-- C5: the shared validation routine `parse_c_string` rejects a null foreign
string as a `Missing <name> parameter` error envelope, rejects bytes that
fail UTF-8 decoding or decode to the empty string as an
`Invalid <name> parameter` error envelope, and otherwise yields the decoded
string; the exported operations (here `set_custom_url`,
`check_and_show_notification`, `verify_download_v2`) delegate to it, as their
behaviour on a null argument shows. -/
theorem C5_foreign_string_validation (name : String) (value : Option (List Nat)) :
    (value = none →
        parse_c_string value name
          = .error (message_error ("Missing " ++ name ++ " parameter")))
  ∧ (∀ b, value = some b → utf8_decode b = none →
        parse_c_string value name
          = .error (message_error ("Invalid " ++ name ++ " parameter")))
  ∧ (∀ b, value = some b → utf8_decode b = some [] →
        parse_c_string value name
          = .error (message_error ("Invalid " ++ name ++ " parameter")))
  ∧ (∀ b cs, value = some b → utf8_decode b = some cs → cs ≠ [] →
        parse_c_string value name = .ok (String.mk cs))
  ∧ (∀ api_url, set_custom_url none api_url = (api_url, missing_param "custom_url"))
  ∧ (∀ jp pc cj resp cacheContent,
        check_and_show_notification jp pc cj none resp cacheContent
          = (missing_param "product_id", cacheContent, []))
  ∧ (∀ jp resp, verify_download_v2 jp none resp = (missing_param "package_id", [])) := by
  refine ⟨?_, ?_, ?_, ?_, ?_, ?_, ?_⟩
  · rintro rfl
    rfl
  · rintro b rfl hb
    simp [parse_c_string, hb, invalid_param]
  · rintro b rfl hb
    simp [parse_c_string, hb, invalid_param]
  · rintro b cs rfl hb hne
    simp [parse_c_string, hb, hne]
  · intro api_url
    rfl
  · intro jp pc cj resp cacheContent
    rfl
  · intro jp resp
    rfl

theorem C5_foreign_string_validation_witness :
    parse_c_string none "user_secret"
        = .error (message_error ("Missing " ++ "user_secret" ++ " parameter"))
      ∧ parse_c_string (some [255]) "user_secret"
          = .error (message_error ("Invalid " ++ "user_secret" ++ " parameter"))
      ∧ parse_c_string (some []) "user_secret"
          = .error (message_error ("Invalid " ++ "user_secret" ++ " parameter"))
      ∧ parse_c_string (some (ascii_bytes "tok")) "user_secret"
          = .ok (String.mk ['t', 'o', 'k']) :=
  ⟨(C5_foreign_string_validation "user_secret" none).1 rfl,
   (C5_foreign_string_validation "user_secret" (some [255])).2.1 [255] rfl (by decide),
   (C5_foreign_string_validation "user_secret" (some [])).2.2.1 [] rfl (by decide),
   (C5_foreign_string_validation "user_secret" (some (ascii_bytes "tok"))).2.2.2.1
     (ascii_bytes "tok") ['t', 'o', 'k'] rfl (by decide) (by decide)⟩

/-- C8: when the argument path does not exist (`fs::metadata` fails, line
267-270), `upload_save_to_server` with otherwise valid arguments returns the
`Error: File or folder does not exist` envelope and sends no network
request. -/
theorem C8_upload_nonexistent_path (env : UploadEnv) (api_url : String)
    (sendResult : Except String HttpResponse) (jsonParse : String → Option Json)
    (jsonDisplay : Json → String) (s1 s2 s3 : String)
    (h1 : parse_c_string env.package_id "package_id" = .ok s1)
    (h2 : parse_c_string env.user_secret "user_secret" = .ok s2)
    (h3 : parse_c_string env.file_or_folder_path "file_or_folder_path" = .ok s3)
    (hm : env.metadata = none) :
    upload_save_to_server env api_url sendResult jsonParse jsonDisplay
      = ⟨message_error "Error: File or folder does not exist", []⟩ := by
  unfold upload_save_to_server
  rw [h1, h2, h3, hm]

theorem C8_upload_nonexistent_path_witness :
    upload_save_to_server
        { package_id := some (ascii_bytes "pkg"), user_secret := some (ascii_bytes "sec"),
          file_or_folder_path := some (ascii_bytes "saves/missing"), metadata := none,
          fileRead := .ok [], walkItems := [] }
        "https://xbdev.store/api/" (.ok ⟨true, 200, .ok "", .ok []⟩) (fun _ => none)
        (fun _ => "")
      = ⟨message_error "Error: File or folder does not exist", []⟩ :=
  C8_upload_nonexistent_path _ _ _ _ _ "pkg" "sec" "saves/missing"
    (by decide) (by decide) (by decide) rfl

/-- C4: the notification scenario.  With the server response body
`\x7b"notification_id":5,"title":"Hi","message":"Hello"\x7d` and an initially
absent dedup cache, the first `check_and_show_notification` call displays the
notification (title `Hi`, body `Hello`), persists the cache document
`\x7b"shown_ids":[5]\x7d` and returns a `Success` envelope; a second call
with the same response finds id 5 in the cache, returns the `Info` envelope
`Notification already shown.` and displays nothing. -/
theorem C4_notification_dedup_scenario :
    check_and_show_notification scenario_json_parse scenario_cache_parse
        scenario_cache_to_json (some (ascii_bytes "prod1"))
        (.ok ⟨true, 200, .ok scenario_body, .ok []⟩) none
      = (message_success "Notification shown.", some "\x7b\"shown_ids\":[5]\x7d",
         [("Hi", "Hello")])
  ∧ check_and_show_notification scenario_json_parse scenario_cache_parse
        scenario_cache_to_json (some (ascii_bytes "prod1"))
        (.ok ⟨true, 200, .ok scenario_body, .ok []⟩) (some "\x7b\"shown_ids\":[5]\x7d")
      = (message_info "Notification already shown.", some "\x7b\"shown_ids\":[5]\x7d", []) :=
  ⟨by decide, by decide⟩

/-- C1 (code bug evidence): both extraction loops trust the entry name
`../escape.txt`: they join it onto the destination `saves` unchecked, write
the file at `saves/../escape.txt` — which resolves to `escape.txt`, outside
the destination — and the surrounding operation reports success instead of
rejecting the entry.  The traversal check the claim (and §4.4/§7 of the
specification) requires is absent from the code. -/
theorem C1_unpack_traversal_writes_outside :
    (download_extract (str_components "saves") allOk
        [Except.ok ⟨["..", "escape.txt"], false, [104, 105]⟩] 0 emptyFs)
      = (none, { files := [(["saves", "..", "escape.txt"], [104, 105])],
                 dirs := [["saves", ".."]] })
  ∧ (update_extract (str_components "saves") allOk
        [Except.ok ⟨["..", "escape.txt"], false, [104, 105]⟩] 0 emptyFs)
      = (none, { files := [(["saves", "..", "escape.txt"], [104, 105])],
                 dirs := [["saves", ".."]] })
  ∧ resolve_path ["saves", "..", "escape.txt"] = ["escape.txt"]
  ∧ (["saves"].isPrefixOf (resolve_path ["saves", "..", "escape.txt"])) = false
  ∧ (download_save_from_server (some (ascii_bytes "pkg")) (some (ascii_bytes "sec"))
        (some (ascii_bytes "saves")) "https://xbdev.store/api/"
        (.ok ⟨true, 200, .ok "", .ok [0]⟩)
        (fun _ => .ok [Except.ok ⟨["..", "escape.txt"], false, [104, 105]⟩]) allOk
        emptyFs).1
      = message_success "Download and extraction successful." := by
  exact ⟨by decide, by decide, by decide, by decide, by decide⟩

theorem getLast_append_slash (v : String) : (v ++ "/").data.getLast? = some '/' := by
  rw [String.data_append]
  exact List.getLast?_concat _

/-- C7: `normalize_url` appends a trailing slash exactly when the input does
not already end in one (hence it is idempotent); `set_custom_url` stores the
normalized URL and returns a `Success` envelope echoing it; and the request
targets of the networked operations are the stored base URL immediately
followed by the endpoint path, so after setting
`https://example.com/api` a download request targets
`https://example.com/api/cloud-saves/`. -/
theorem C7_url_normalization (u : String) (arg : Option (List Nat)) (api_url : String) :
    (u.data.getLast? = some '/' → normalize_url u = u)
  ∧ (u.data.getLast? ≠ some '/' → normalize_url u = u ++ "/")
  ∧ normalize_url (normalize_url u) = normalize_url u
  ∧ (∀ s, parse_c_string arg "custom_url" = .ok s →
        set_custom_url arg api_url
          = (normalize_url s, message_success ("Custom URL set to " ++ normalize_url s)))
  ∧ (set_custom_url (some (ascii_bytes "https://example.com/api"))
        "https://xbdev.store/api/").1
      = "https://example.com/api/"
  ∧ (∀ base, cloud_saves_url base = base ++ "cloud-saves/")
  ∧ (download_save_from_server (some (ascii_bytes "pkg")) (some (ascii_bytes "sec"))
        (some (ascii_bytes "saves")) "https://example.com/api/"
        (.ok ⟨true, 200, .ok "", .ok []⟩) (fun _ => .ok []) allOk emptyFs).2.2
      = ["https://example.com/api/cloud-saves/"]
  ∧ version_hex_url "https://example.com/api/" = "https://example.com/api/version-hex/"
  ∧ latest_patch_url "https://example.com/api/" = "https://example.com/api/get_latest_patch/"
  ∧ verify_download_url "https://example.com/api/" = "https://example.com/api/verify-download/"
  ∧ username_by_secret_url "https://example.com/api/"
      = "https://example.com/api/get-username-by-secret/"
  ∧ status_check_url "https://example.com/api/" = "https://example.com/api/status-check"
  ∧ (∀ base product_id, latest_notification_url base product_id
      = base ++ "get-latest-notification-for-app/?product_id=" ++ product_id)
  ∧ latest_notification_url "https://example.com/api/" "prod1"
      = "https://example.com/api/get-latest-notification-for-app/?product_id=prod1" := by
  refine ⟨?_, ?_, ?_, ?_, by decide, fun base => rfl, by decide, by decide, by decide,
    by decide, by decide, by decide, fun base product_id => rfl, by decide⟩
  · intro h
    simp [normalize_url, h]
  · intro h
    simp [normalize_url, h]
  · by_cases h : u.data.getLast? = some '/'
    · simp [normalize_url, h]
    · simp [normalize_url, h, getLast_append_slash]
  · intro s hs
    simp [set_custom_url, hs]

theorem C7_url_normalization_witness :
    normalize_url (normalize_url "https://example.com/api") = normalize_url "https://example.com/api"
      ∧ ("https://example.com/api" : String).data.getLast? ≠ some '/'
      ∧ normalize_url "https://example.com/api" = "https://example.com/api" ++ "/"
      ∧ set_custom_url (some (ascii_bytes "https://example.com/api")) "https://xbdev.store/api/"
          = ("https://example.com/api/",
             message_success ("Custom URL set to " ++ normalize_url "https://example.com/api")) := by
  refine ⟨(C7_url_normalization "https://example.com/api" none "x").2.2.1, by decide, ?_, ?_⟩
  · exact (C7_url_normalization "https://example.com/api" none "x").2.1 (by decide)
  · have h := (C7_url_normalization "https://example.com/api"
      (some (ascii_bytes "https://example.com/api")) "https://xbdev.store/api/").2.2.2.1
      "https://example.com/api" (by decide)
    rw [h]
    have : normalize_url "https://example.com/api" = "https://example.com/api/" := by decide
    rw [this]

/-- C10: `verify_download_v2` never inspects the HTTP status: two transport
responses with the same body yield the same result whatever their status
codes or success flags; and on a delivered body the outcome is exactly the
body-driven case split — an `Error` envelope quoting the raw text when it is
not valid JSON, `Success` when the JSON `status` field is `success`, an
`Error` envelope after triggering a `Download Verification Failed`
notification when it is `error`, and an `Error` envelope on any other or
missing `status` value. -/
theorem C10_verify_ignores_http_status (jsonParse : String → Option Json)
    (pid : Option (List Nat)) :
    (∀ r1 r2 : HttpResponse, r1.textResult = r2.textResult →
        verify_download_v2 jsonParse pid (.ok r1) = verify_download_v2 jsonParse pid (.ok r2))
  ∧ ∀ (s : String) (sb : Bool) (code : Nat) (txt : String)
      (bts : Except String (List Nat)),
      parse_c_string pid "package_id" = .ok s →
      ((jsonParse txt = none →
          verify_download_v2 jsonParse pid (.ok ⟨sb, code, .ok txt, bts⟩)
            = (message_error ("Error: Invalid server response: " ++ txt), []))
        ∧ (∀ j, jsonParse txt = some j →
            (j.get "status").bind Json.as_str = some "success" →
            verify_download_v2 jsonParse pid (.ok ⟨sb, code, .ok txt, bts⟩)
              = (message_success "Download verified successfully.", []))
        ∧ (∀ j, jsonParse txt = some j →
            (j.get "status").bind Json.as_str = some "error" →
            verify_download_v2 jsonParse pid (.ok ⟨sb, code, .ok txt, bts⟩)
              = (message_error
                   ("Error: " ++ ((j.get "message").bind Json.as_str).getD "Unknown error"),
                 [("Download Verification Failed",
                   ((j.get "message").bind Json.as_str).getD "Unknown error")]))
        ∧ (∀ j st, jsonParse txt = some j → (j.get "status").bind Json.as_str = st →
            st ≠ some "success" → st ≠ some "error" →
            verify_download_v2 jsonParse pid (.ok ⟨sb, code, .ok txt, bts⟩)
              = (message_error ("Error: Unexpected response: " ++ txt), []))) := by
  constructor
  · intro r1 r2 h
    simp only [verify_download_v2, response_text, h]
  · intro s sb code txt bts hparse
    refine ⟨?_, ?_, ?_, ?_⟩
    · intro hj
      simp [verify_download_v2, hparse, response_text, hj]
    · intro j hj hst
      simp [verify_download_v2, hparse, response_text, hj, hst]
    · intro j hj hst
      simp [verify_download_v2, hparse, response_text, hj, hst]
    · intro j st hj hst hne1 hne2
      rcases st with _ | v
      · simp [verify_download_v2, hparse, response_text, hj, hst]
      · have h1 : v ≠ "success" := fun h => hne1 (by rw [h])
        have h2 : v ≠ "error" := fun h => hne2 (by rw [h])
        simp only [verify_download_v2, hparse, response_text, hj, hst]

theorem pack_dir_pure (files : List (List String × List Nat)) :
    pack_dir (files.map fun pc => WalkItem.file pc.1 (Except.ok pc.2))
      = .ok (packed_entries files) := by
  induction files with
  | nil => rfl
  | cons pc rest ih => simp [pack_dir, packed_entries, ih, Except.map]

theorem extract_packed_aux (dest : List String) (files : List (List String × List Nat)) :
    ∀ (i : Nat) (fs : FsState),
      (files.map Prod.fst).Nodup →
      (∀ p ∈ files.map Prod.fst, findVal (dest ++ p) fs.files = none) →
      (download_extract dest allOk ((packed_entries files).map Except.ok) i fs).1 = none
        ∧ (download_extract dest allOk ((packed_entries files).map Except.ok) i fs).2.files
            = (files.map fun pc => (dest ++ pc.1, pc.2)).reverse ++ fs.files := by
  induction files with
  | nil =>
    intro i fs _ _
    exact ⟨rfl, by simp [packed_entries, download_extract]⟩
  | cons pc rest ih =>
    intro i fs hnd habs
    have hhead : findVal (dest ++ pc.1) fs.files = none := habs pc.1 (by simp)
    have hnd2 : (pc.1 :: rest.map Prod.fst).Nodup := by simpa using hnd
    have hmem : pc.1 ∉ rest.map Prod.fst := (List.nodup_cons.mp hnd2).1
    have hnd3 : (rest.map Prod.fst).Nodup := (List.nodup_cons.mp hnd2).2
    have hfs1 : (if dirExists fs (dest ++ pc.1).dropLast then fs
        else addDir fs ((dest ++ pc.1).dropLast)).files = fs.files := by
      by_cases h : dirExists fs (dest ++ pc.1).dropLast
      · rw [if_pos h]
      · rw [if_neg h]
        rfl
    have hfs3 : (writeFile (writeFile
        (if dirExists fs (dest ++ pc.1).dropLast then fs
         else addDir fs ((dest ++ pc.1).dropLast)) (dest ++ pc.1) [])
        (dest ++ pc.1) pc.2).files = (dest ++ pc.1, pc.2) :: fs.files := by
      show (dest ++ pc.1, pc.2)
          :: removeFile ((dest ++ pc.1, ([] : List Nat))
              :: removeFile (if dirExists fs (dest ++ pc.1).dropLast then fs
                  else addDir fs ((dest ++ pc.1).dropLast)).files (dest ++ pc.1))
            (dest ++ pc.1)
          = (dest ++ pc.1, pc.2) :: fs.files
      rw [hfs1, removeFile_of_findVal_none _ _ hhead]
      simp [removeFile, removeFile_of_findVal_none _ _ hhead]
    have hstep : download_extract dest allOk ((packed_entries (pc :: rest)).map Except.ok) i fs
        = download_extract dest allOk ((packed_entries rest).map Except.ok) (i + 1)
            (writeFile (writeFile
              (if dirExists fs (dest ++ pc.1).dropLast then fs
               else addDir fs ((dest ++ pc.1).dropLast)) (dest ++ pc.1) [])
              (dest ++ pc.1) pc.2) := by
      simp [packed_entries, download_extract, allOk]
    have habs2 : ∀ p ∈ rest.map Prod.fst,
        findVal (dest ++ p)
          (writeFile (writeFile
            (if dirExists fs (dest ++ pc.1).dropLast then fs
             else addDir fs ((dest ++ pc.1).dropLast)) (dest ++ pc.1) [])
            (dest ++ pc.1) pc.2).files = none := by
      intro p hp
      have hne : pc.1 ≠ p := fun h => hmem (h ▸ hp)
      have hcond : ¬(dest ++ pc.1 = dest ++ p) := fun h => hne (List.append_cancel_left h)
      rw [hfs3]
      simp only [findVal, if_neg hcond]
      exact habs p (by simp [hp])
    have hrec := ih (i + 1)
      (writeFile (writeFile
        (if dirExists fs (dest ++ pc.1).dropLast then fs
         else addDir fs ((dest ++ pc.1).dropLast)) (dest ++ pc.1) [])
        (dest ++ pc.1) pc.2) hnd3 habs2
    refine ⟨?_, ?_⟩
    · rw [hstep]
      exact hrec.1
    · rw [hstep, hrec.2, hfs3]
      simp

/-- C2: packing a directory tree of regular files (distinct relative paths)
with the archive packer of `upload_save_to_server` and unpacking the
resulting archive with the extraction loop of `download_save_from_server`
into an empty destination succeeds and reproduces exactly the original file
set: the destination holds precisely the pairs `(dest ++ p, c)` for the
original relative paths `p` with their byte-identical contents `c`. -/
theorem C2_pack_unpack_roundtrip (files : List (List String × List Nat)) (dest : List String)
    (hnd : (files.map Prod.fst).Nodup) :
    pack_dir (files.map fun pc => WalkItem.file pc.1 (Except.ok pc.2))
        = .ok (packed_entries files)
  ∧ (download_extract dest allOk ((packed_entries files).map Except.ok) 0 emptyFs).1 = none
  ∧ (download_extract dest allOk ((packed_entries files).map Except.ok) 0 emptyFs).2.files
      = (files.map fun pc => (dest ++ pc.1, pc.2)).reverse
  ∧ ∀ p c, ((p, c) ∈ files ↔
      (dest ++ p, c) ∈
        (download_extract dest allOk ((packed_entries files).map Except.ok) 0 emptyFs).2.files) := by
  have haux := extract_packed_aux dest files 0 emptyFs hnd (by intro p _; rfl)
  have hfiles : (download_extract dest allOk ((packed_entries files).map Except.ok) 0
      emptyFs).2.files = (files.map fun pc => (dest ++ pc.1, pc.2)).reverse := by
    rw [haux.2]
    simp [emptyFs]
  refine ⟨pack_dir_pure files, haux.1, hfiles, ?_⟩
  intro p c
  rw [hfiles]
  constructor
  · intro h
    exact List.mem_reverse.mpr (List.mem_map.mpr ⟨(p, c), h, rfl⟩)
  · intro h
    rcases List.mem_map.mp (List.mem_reverse.mp h) with ⟨pc, hpc, heq⟩
    obtain ⟨a, b⟩ := pc
    have h1 : dest ++ a = dest ++ p := congrArg Prod.fst heq
    have h2 : b = c := congrArg Prod.snd heq
    have h3 : a = p := List.append_cancel_left h1
    rw [← h3, ← h2]
    exact hpc

theorem C2_pack_unpack_roundtrip_witness :
    (([(["a"], [1]), (["b", "c"], [2, 3])].map
        (Prod.fst (α := List String) (β := List Nat))).Nodup)
  ∧ (pack_dir ([(["a"], [1]), (["b", "c"], [2, 3])].map
        fun pc => WalkItem.file pc.1 (Except.ok pc.2))
        = .ok (packed_entries [(["a"], [1]), (["b", "c"], [2, 3])])
      ∧ (download_extract ["dest"] allOk
          ((packed_entries [(["a"], [1]), (["b", "c"], [2, 3])]).map Except.ok) 0 emptyFs).1
          = none
      ∧ (download_extract ["dest"] allOk
          ((packed_entries [(["a"], [1]), (["b", "c"], [2, 3])]).map Except.ok) 0
          emptyFs).2.files
          = ([(["a"], [1]), (["b", "c"], [2, 3])].map
              fun pc => (["dest"] ++ pc.1, pc.2)).reverse
      ∧ ∀ p c, ((p, c) ∈ [(["a"], [1]), (["b", "c"], [2, 3])] ↔
          (["dest"] ++ p, c) ∈
            (download_extract ["dest"] allOk
              ((packed_entries [(["a"], [1]), (["b", "c"], [2, 3])]).map Except.ok) 0
              emptyFs).2.files)) :=
  ⟨by decide, C2_pack_unpack_roundtrip [(["a"], [1]), (["b", "c"], [2, 3])] ["dest"]
    (by decide)⟩

theorem update_extract_err_status (dest : List String) (ops : Nat → EntryFsOps) :
    ∀ (items : List (Except String ZipEntry)) (i : Nat) (fs : FsState)
      (err : DevstoreFfiMessage) (fs' : FsState),
      update_extract dest ops items i fs = (some err, fs') → err.status = .Error := by
  intro items
  induction items with
  | nil =>
    intro i fs err fs' h
    exact absurd (congrArg Prod.fst h) (by simp [update_extract])
  | cons item rest ih =>
    intro i fs err fs' h
    cases item with
    | error e =>
      simp only [update_extract, Prod.mk.injEq] at h
      rw [← Option.some.inj h.1]
      rfl
    | ok entry =>
      simp only [update_extract] at h
      split at h
      · split at h
        · exact ih _ _ _ _ h
        · rw [← Option.some.inj (congrArg Prod.fst h)]
          rfl
      · split at h
        · rw [← Option.some.inj (congrArg Prod.fst h)]
          rfl
        · split at h
          · rw [← Option.some.inj (congrArg Prod.fst h)]
            rfl
          · split at h
            · rw [← Option.some.inj (congrArg Prod.fst h)]
              rfl
            · exact ih _ _ _ _ h

/-- C3 counterexample: a `download_update_for_product` run in which the patch
fetch, the install-directory creation and the extraction of every entry
succeed but the update-manifest write fails (`manifestWriteOk = false`) still
returns the `Success` envelope, because lines 830-835 discard the write
result (`let _ = fs::write(...)`).  The claim, which demands an `Error`
envelope on a manifest-write failure, is therefore false of the code. -/
theorem C3_success_despite_manifest_write_failure :
    (download_update_for_product (fun _ => .ok [])
        { package_id := some (ascii_bytes "game1"),
          sendResult := .ok ⟨true, 200, .ok "", .ok [7]⟩, baseUpdateExists := false,
          freshSuffix := "abc", createDirOk := true, manifestSerializeOk := true,
          manifestWriteOk := false } allOk ["prefs"] emptyFs).1
      = message_success "Update downloaded and extracted successfully."
  ∧ UpdateEnv.manifestWriteOk
      { package_id := some (ascii_bytes "game1"),
        sendResult := .ok ⟨true, 200, .ok "", .ok [7]⟩, baseUpdateExists := false,
        freshSuffix := "abc", createDirOk := true, manifestSerializeOk := true,
        manifestWriteOk := false } = false :=
  ⟨by decide, rfl⟩

/-- C3 (amended): in `download_update_for_product`, failure of fetching the
patch (network error, non-success status, unreadable body), creating the
install directory, opening the archive or unpacking any entry returns an
`Error` envelope, and a `Success` envelope is returned exactly when all those
steps succeed; the update-manifest serialization and write are best-effort
and their outcome does not influence the envelope (the theorem holds for
every value of `manifestSerializeOk`/`manifestWriteOk`). -/
theorem C3_update_envelope_vs_steps
    (zipOpen : List Nat → Except String (List (Except String ZipEntry)))
    (env : UpdateEnv) (ops : Nat → EntryFsOps) (pref_dir : List String) (fs0 : FsState)
    (s : String) (hparse : parse_c_string env.package_id "package_id" = .ok s) :
    ((download_update_for_product zipOpen env ops pref_dir fs0).1.status
        = DevstoreMessageStatus.Success ↔ update_steps_ok zipOpen env ops pref_dir fs0)
  ∧ ((download_update_for_product zipOpen env ops pref_dir fs0).1.status
        = DevstoreMessageStatus.Error
      ↔ ¬update_steps_ok zipOpen env ops pref_dir fs0) := by
  rcases hsend : env.sendResult with e | r
  · have hsteps : ¬update_steps_ok zipOpen env ops pref_dir fs0 := by
      simp [update_steps_ok, hsend]
    simp [download_update_for_product, hparse, hsend, hsteps, status_message_error]
  · cases hsucc : r.isSuccess with
    | false =>
      have hsteps : ¬update_steps_ok zipOpen env ops pref_dir fs0 := by
        simp [update_steps_ok, hsend, hsucc]
      simp [download_update_for_product, hparse, hsend, hsucc, hsteps, status_message_error]
    | true =>
      rcases hbytes : r.bytesResult with e | bytes
      · have hsteps : ¬update_steps_ok zipOpen env ops pref_dir fs0 := by
          simp [update_steps_ok, hsend, hsucc, hbytes]
        simp [download_update_for_product, hparse, hsend, hsucc, hbytes, hsteps, status_message_error]
      · cases hcd : env.createDirOk with
        | false =>
          have hsteps : ¬update_steps_ok zipOpen env ops pref_dir fs0 := by
            simp [update_steps_ok, hsend, hsucc, hbytes, hcd]
          simp [download_update_for_product, hparse, hsend, hsucc, hbytes, hcd, hsteps,
            status_message_error]
        | true =>
          rcases hzip : zipOpen bytes with e | items
          · have hsteps : ¬update_steps_ok zipOpen env ops pref_dir fs0 := by
              simp [update_steps_ok, hsend, hsucc, hbytes, hcd, hzip]
            simp [download_update_for_product, hparse, hsend, hsucc, hbytes, hcd, hzip,
              hsteps, status_message_error]
          · rcases hex : update_extract
                (update_install_path pref_dir env.baseUpdateExists env.freshSuffix) ops
                items 0
                (addDir fs0 (update_install_path pref_dir env.baseUpdateExists
                  env.freshSuffix)) with ⟨o, fs'⟩
            rcases o with _ | err
            · have hsteps : update_steps_ok zipOpen env ops pref_dir fs0 :=
                ⟨r, hsend, hsucc, bytes, hbytes, hcd, items, hzip, by rw [hex]⟩
              simp [download_update_for_product, hparse, hsend, hsucc, hbytes, hcd, hzip,
                hex, hsteps, status_message_success, status_message_error]
            · have herrst : err.status = .Error :=
                update_extract_err_status _ ops items 0 _ err fs' hex
              have hsteps : ¬update_steps_ok zipOpen env ops pref_dir fs0 := by
                simp [update_steps_ok, hsend, hsucc, hbytes, hcd, hzip, hex]
              simp [download_update_for_product, hparse, hsend, hsucc, hbytes, hcd, hzip,
                hex, hsteps, herrst]

theorem C3_update_envelope_vs_steps_witness :
    parse_c_string (some (ascii_bytes "game1")) "package_id" = .ok "game1"
  ∧ (((download_update_for_product (fun _ => .ok [])
        { package_id := some (ascii_bytes "game1"),
          sendResult := .ok ⟨true, 200, .ok "", .ok [7]⟩, baseUpdateExists := false,
          freshSuffix := "abc", createDirOk := true, manifestSerializeOk := true,
          manifestWriteOk := true } allOk ["prefs"] emptyFs).1.status
        = DevstoreMessageStatus.Success
      ↔ update_steps_ok (fun _ => .ok [])
          { package_id := some (ascii_bytes "game1"),
            sendResult := .ok ⟨true, 200, .ok "", .ok [7]⟩, baseUpdateExists := false,
            freshSuffix := "abc", createDirOk := true, manifestSerializeOk := true,
            manifestWriteOk := true } allOk ["prefs"] emptyFs)
    ∧ ((download_update_for_product (fun _ => .ok [])
        { package_id := some (ascii_bytes "game1"),
          sendResult := .ok ⟨true, 200, .ok "", .ok [7]⟩, baseUpdateExists := false,
          freshSuffix := "abc", createDirOk := true, manifestSerializeOk := true,
          manifestWriteOk := true } allOk ["prefs"] emptyFs).1.status
        = DevstoreMessageStatus.Error
      ↔ ¬update_steps_ok (fun _ => .ok [])
          { package_id := some (ascii_bytes "game1"),
            sendResult := .ok ⟨true, 200, .ok "", .ok [7]⟩, baseUpdateExists := false,
            freshSuffix := "abc", createDirOk := true, manifestSerializeOk := true,
            manifestWriteOk := true } allOk ["prefs"] emptyFs)) :=
  ⟨by decide, C3_update_envelope_vs_steps (fun _ => .ok []) _ allOk ["prefs"] emptyFs
    "game1" (by decide)⟩

theorem C10_verify_ignores_http_status_witness :
    verify_download_v2 (fun _ => none) (some (ascii_bytes "pkg"))
        (.ok ⟨true, 200, .ok "hello", .ok []⟩)
      = verify_download_v2 (fun _ => none) (some (ascii_bytes "pkg"))
        (.ok ⟨false, 500, .ok "hello", .ok []⟩)
  ∧ verify_download_v2 (fun _ => none) (some (ascii_bytes "pkg"))
        (.ok ⟨false, 500, .ok "hello", .ok []⟩)
      = (message_error ("Error: Invalid server response: " ++ "hello"), []) :=
  ⟨(C10_verify_ignores_http_status (fun _ => none) (some (ascii_bytes "pkg"))).1
      ⟨true, 200, .ok "hello", .ok []⟩ ⟨false, 500, .ok "hello", .ok []⟩ rfl,
   ((C10_verify_ignores_http_status (fun _ => none) (some (ascii_bytes "pkg"))).2
      "pkg" false 500 "hello" (.ok []) (by decide)).1 rfl⟩

end DevstoreSDK
